import Mathlib

/-!
Shallow embedding of `src/bot/modules/auto_tbl.py` (TamilBlasters auto-leech
monitor).  Network and Telegram effects are modelled by oracle functions
packaged in `CycleEnv`; the module-level mutable globals become fields of
`MonitorState`; each fallible call's outcome is explicit data.
-/

namespace AutoTbl

/-- A Python `int | str` chat reference (`_monitor_command_chat`,
`AUTO_TBL_CHANNEL`, `AUTO_TBL_COMMAND_CHAT` values). -/
inductive ChatRef where
  | intRef (i : Int)
  | strRef (s : String)
deriving DecidableEq

/-- Python truthiness of an `int | str` value: `0` and `""` are falsy. -/
def ChatRef.truthy : ChatRef → Bool
  | .intRef i => i != 0
  | .strRef s => s != ("")

/-- Python `a or b` on optional chat references: `None` and falsy values
fall through to the right operand. -/
def pyOr (a b : Option ChatRef) : Option ChatRef :=
  match a with
  | some r => if r.truthy then some r else b
  | none => b

/-- Python `not x` on an optional chat reference (`None`, `0` and `""` are
falsy). -/
def optFalsy : Option ChatRef → Bool
  | none => true
  | some r => !r.truthy

/-- `pyrogram.enums.ChatType` members used by the module. -/
inductive ChatType where
  | privateChat
  | botChat
  | group
  | supergroup
  | channel
deriving DecidableEq

/-- What `bot.get_chat` returns on success: an id and a possibly missing
type (`chat.type if chat.type else ChatType.SUPERGROUP` guards the
latter). -/
structure RawChat where
  id : Int
  ctype : Option ChatType
deriving DecidableEq

/-- Outcome of one `bot.get_chat` call.  `rpcError` is the
`pyrogram.errors.RPCError` class that `_resolve_command_chat` catches at
line 180; `fatalError` is any other exception class, which that handler
does not match and `_trigger_qbleech` does not guard (its `try/except`
wraps only the `_mirror_leech` call), so it propagates into the monitor
loop body at line 238 and out of the loop. -/
inductive GetChatResult where
  | ok (raw : RawChat)
  | rpcError
  | fatalError
deriving DecidableEq

/-- The `SimpleNamespace(id=..., type=...)` stub cached by
`_resolve_command_chat`; its type is always present (line 183 substitutes
`SUPERGROUP` for a missing one). -/
structure ChatStub where
  id : Int
  ctype : ChatType
deriving DecidableEq

/-- One file descriptor of a topic (the dicts built by `_crawl_tbl_sync`;
the constant `"type": "torrent"` key is omitted).  Dedup identity is
`link`. -/
structure FileDesc where
  title : String
  link : String
  size : String
deriving DecidableEq

/-- One topic dict built by `_crawl_tbl_sync` (`topic_url`, `title`, `size`,
`links`). -/
structure Topic where
  topicUrl : String
  title : String
  size : String
  links : List FileDesc
deriving DecidableEq

/-- Observable calls the monitor makes to its collaborators, in order. -/
inductive Event where
  | fetchCall (link : String)      -- `_download_torrent(file_["link"])`
  | sendCall (link : String)       -- `bot.send_document(...)`
  | triggerCall (link : String)    -- entry into `_trigger_qbleech`
  | getChatCall (ref : ChatRef)    -- the network call `bot.get_chat(chat_ref)`
  | mirrorLeechCall (link : String) -- the downstream `_mirror_leech(...)` call
deriving DecidableEq

/-- Outcome of one `bot.send_document` call.  `rpcError` is the
`pyrogram.errors.RPCError` class the code catches at line 234;
`fatalError` is any other exception class, which no handler in
`_tamilblasters_monitor` catches. -/
inductive SendOutcome where
  | ok
  | rpcError
  | fatalError
deriving DecidableEq

/-- Oracles for the collaborator calls made during a poll cycle.
`download link = false` models `_download_torrent` returning `None` (its
body catches every exception).  `getChat` distinguishes success, the
caught `RPCError`, and the uncaught remaining exception classes.
`cfgCommandChat` and `cfgChannel` are
`config_dict.get('AUTO_TBL_COMMAND_CHAT')` and
`config_dict.get('AUTO_TBL_CHANNEL')` as read inside `_trigger_qbleech`.
The downstream `_mirror_leech` call sits inside `try/except Exception`
whose handler only logs, so no outcome of it is distinguishable to the
monitor and none is modelled. -/
structure CycleEnv where
  download : String → Bool
  send : String → SendOutcome
  getChat : ChatRef → GetChatResult
  cfgCommandChat : Option ChatRef
  cfgChannel : Option ChatRef

/-- The module-level mutable state: `_monitor_last_links`,
`_monitor_seen_topics`, `_monitor_command_chat`, `_command_chat_cache`,
and whether `_monitor_task` holds an unfinished task. -/
structure MonitorState where
  lastLinks : Finset String
  seenTopics : Finset String
  commandChat : Option ChatRef
  cache : Option (ChatRef × ChatStub)
  taskActive : Bool
deriving DecidableEq

/-- How one `_resolve_command_chat` call ended. -/
inductive ResolveOutcome where
  | resolved (stub : ChatStub)  -- stub returned (and written to the cache)
  | failed                      -- `RPCError` caught at line 180: `return None`
  | raised                      -- any other exception class propagates
deriving DecidableEq

/-- The fresh-resolution arm of `_resolve_command_chat` (lines 178-185):
`bot.get_chat`; an `RPCError` is caught and `None` returned with the
cache as it was; any other exception class propagates, also leaving the
cache as it was; on success the stub is built and overwrites the single
cache slot. -/
def resolveFresh (getChat : ChatRef → GetChatResult)
    (cache : Option (ChatRef × ChatStub)) (chat_ref : ChatRef) :
    Option (ChatRef × ChatStub) × ResolveOutcome × List Event :=
  match getChat chat_ref with
  | GetChatResult.rpcError =>
    (cache, ResolveOutcome.failed, [Event.getChatCall chat_ref])
  | GetChatResult.fatalError =>
    (cache, ResolveOutcome.raised, [Event.getChatCall chat_ref])
  | GetChatResult.ok raw =>
    let chat_stub : ChatStub := ⟨raw.id, raw.ctype.getD ChatType.supergroup⟩
    (some (chat_ref, chat_stub), ResolveOutcome.resolved chat_stub,
     [Event.getChatCall chat_ref])

/-- `_resolve_command_chat` (lines 174-185).  The Python guard
`if _command_chat_cache and _command_chat_cache[0] == chat_ref` is a hit
test (a 2-tuple is always truthy).  Returns the cache afterwards, how the
call ended, and the collaborator calls made. -/
def _resolve_command_chat (getChat : ChatRef → GetChatResult)
    (cache : Option (ChatRef × ChatStub)) (chat_ref : ChatRef) :
    Option (ChatRef × ChatStub) × ResolveOutcome × List Event :=
  match cache with
  | some (k, v) =>
    if k = chat_ref then (some (k, v), ResolveOutcome.resolved v, [])
    else resolveFresh getChat (some (k, v)) chat_ref
  | none => resolveFresh getChat none chat_ref

/-- How a `_trigger_qbleech` call ended. -/
inductive TriggerPath where
  | notConfigured   -- `if not chat_ref:` no-op branch (line 190)
  | resolveFailed   -- `_resolve_command_chat` returned `None` (line 194)
  | raised          -- an uncaught exception from `bot.get_chat` propagates
  | invoked         -- `_mirror_leech` was called (line 200)
deriving DecidableEq

/-- `_trigger_qbleech` (lines 188-203).  `chat_ref` is the Python chain
`_monitor_command_chat or config_dict.get('AUTO_TBL_COMMAND_CHAT') or
config_dict.get('AUTO_TBL_CHANNEL')`.  Only the `_mirror_leech` call sits
in `try/except Exception`, so the path is `invoked` whether or not the
downstream action raises, while a non-`RPCError` from `bot.get_chat`
escapes this function (`raised`).  (The `chat.type is None` patch at
lines 196-197 is unreachable: cached stubs always carry a type.) -/
def _trigger_qbleech (env : CycleEnv) (commandChat : Option ChatRef)
    (cache : Option (ChatRef × ChatStub)) (link : String) :
    Option (ChatRef × ChatStub) × List Event × TriggerPath :=
  let chat_ref := pyOr commandChat (pyOr env.cfgCommandChat env.cfgChannel)
  match chat_ref with
  | none => (cache, [Event.triggerCall link], TriggerPath.notConfigured)
  | some r =>
    if r.truthy = false then
      (cache, [Event.triggerCall link], TriggerPath.notConfigured)
    else
      match _resolve_command_chat env.getChat cache r with
      | (cache2, ResolveOutcome.failed, evs) =>
        (cache2, Event.triggerCall link :: evs, TriggerPath.resolveFailed)
      | (cache2, ResolveOutcome.raised, evs) =>
        (cache2, Event.triggerCall link :: evs, TriggerPath.raised)
      | (cache2, ResolveOutcome.resolved _chat, evs) =>
        (cache2, Event.triggerCall link :: evs ++ [Event.mirrorLeechCall link],
         TriggerPath.invoked)

/-- Characters the sanitizer keeps unchanged: the regex class
`[0-9A-Za-z._-]` of `_sanitize_filename`. -/
def safeChar (c : Char) : Bool :=
  c.isAlphanum || c == '.' || c == '_' || c == '-'

/-- `re.sub(r"[^0-9A-Za-z._-]+", "_", ...)`: each maximal run of
characters outside the class becomes a single `'_'`.  `prevBad` records
being inside such a run. -/
def subBadAux : Bool → List Char → List Char
  | _, [] => []
  | prevBad, c :: cs =>
    if safeChar c then c :: subBadAux false cs
    else if prevBad then subBadAux true cs
    else '_' :: subBadAux true cs

/-- Python `.strip("_")`: drop leading and trailing underscores. -/
def stripUnderscore (l : List Char) : List Char :=
  ((l.dropWhile (fun c => c == '_')).reverse.dropWhile (fun c => c == '_')).reverse

/-- `_sanitize_filename` (lines 167-171). -/
def _sanitize_filename (name : String) : String :=
  if name = ("") then ("tbl_torrent.torrent")
  else
    let safe := String.mk (stripUnderscore (subBadAux false name.data))
    (if safe = ("") then ("tbl_torrent") else safe) ++ (".torrent")

def _MAX_TOPICS : Nat := 15

def _BASE_URL : String := "https://www.1tamilmv.land/"

/-- `rel_url if rel_url.startswith("http") else f"{_BASE_URL}{rel_url}"`. -/
def fullUrlOf (rel : String) : String :=
  if rel.startsWith ("http") then rel else _BASE_URL ++ rel

/-- `dict.fromkeys`: deduplicate keeping the first occurrence of each key.
`seen` is the set of keys already inserted. -/
def dedupKeepFirstAux (seen : List String) : List String → List String
  | [] => []
  | x :: xs =>
    if x ∈ seen then dedupKeepFirstAux seen xs
    else x :: dedupKeepFirstAux (x :: seen) xs

/-- `list(dict.fromkeys(topic_links))`. -/
def dedupKeepFirst (l : List String) : List String :=
  dedupKeepFirstAux [] l

/-- The iteration sequence of `_crawl_tbl_sync`'s topic loop:
`list(dict.fromkeys(topic_links))[:_MAX_TOPICS]`. -/
def crawlEvaluated (topicLinks : List String) : List String :=
  (dedupKeepFirst topicLinks).take _MAX_TOPICS

/-- The per-topic body of `_crawl_tbl_sync` (lines 102-143) over the
evaluated URLs.  `fetchTopic full = none` models the per-topic
`except Exception` arm (request or parse failure: topic skipped);
`some []` a page with no torrent anchors (`if file_links:` fails, topic
not appended); `some (f :: fs)` builds the topic dict from the first
file's title and size. -/
def crawlTopics (fetchTopic : String → Option (List FileDesc)) :
    List String → List Topic
  | [] => []
  | rel :: rest =>
    let full := fullUrlOf rel
    match fetchTopic full with
    | none => crawlTopics fetchTopic rest
    | some [] => crawlTopics fetchTopic rest
    | some (f :: fs) =>
      { topicUrl := full, title := f.title, size := f.size, links := f :: fs } ::
        crawlTopics fetchTopic rest

/-- `_crawl_tbl_sync` (lines 86-145) given the homepage's topic hrefs in
document order.  (A homepage fetch failure returns `[]` before this point
and is modelled by the `Option` fed to `processCycle`.) -/
def _crawl_tbl_sync (fetchTopic : String → Option (List FileDesc))
    (topicLinks : List String) : List Topic :=
  crawlTopics fetchTopic (crawlEvaluated topicLinks)

/-- The files a topic contributes this cycle:
`[f for f in links if f["link"] not in _monitor_last_links]` (line 219). -/
def newFilesOf (st : MonitorState) (t : Topic) : List FileDesc :=
  t.links.filter (fun f => decide (f.link ∉ st.lastLinks))

/-- The per-item pipeline, lines 223-238: download (soft failure skips the
file), sanitize, `send_document` (success adds the link and runs
`_trigger_qbleech`; `RPCError` skips; any other exception class
propagates — the returned flag `true`).  The link is added *before* the
trigger runs, so a propagating `bot.get_chat` exception inside the
trigger (path `raised`) also yields the flag `true`, with the link
already recorded. -/
def processFile (env : CycleEnv) (st : MonitorState) (f : FileDesc) :
    MonitorState × List Event × Bool :=
  if env.download f.link = false then
    (st, [Event.fetchCall f.link], false)
  else
    match env.send f.link with
    | SendOutcome.rpcError =>
      (st, [Event.fetchCall f.link, Event.sendCall f.link], false)
    | SendOutcome.fatalError =>
      (st, [Event.fetchCall f.link, Event.sendCall f.link], true)
    | SendOutcome.ok =>
      let st1 := { st with lastLinks := insert f.link st.lastLinks }
      let tq := _trigger_qbleech env st1.commandChat st1.cache f.link
      ({ st1 with cache := tq.1 },
       Event.fetchCall f.link :: Event.sendCall f.link :: tq.2.1,
       decide (tq.2.2 = TriggerPath.raised))

/-- `for file_ in new_files:` — sequential, stopping only when an
exception propagates (flag `true`). -/
def processFiles (env : CycleEnv) :
    MonitorState → List FileDesc → MonitorState × List Event × Bool
  | st, [] => (st, [], false)
  | st, f :: fs =>
    let r := processFile env st f
    if r.2.2 then r
    else
      let r2 := processFiles env r.1 fs
      (r2.1, r.2.1 ++ r2.2.1, r2.2.2)

/-- One topic of the cycle, lines 216-240: skip when already seen with no
new files, otherwise run the pipeline over `new_files` and then mark the
topic seen (unless an exception propagated first). -/
def processTopic (env : CycleEnv) (st : MonitorState) (t : Topic) :
    MonitorState × List Event × Bool :=
  let new_files := newFilesOf st t
  if t.topicUrl ∈ st.seenTopics ∧ new_files = [] then (st, [], false)
  else
    let r := processFiles env st new_files
    if r.2.2 then r
    else ({ r.1 with seenTopics := insert t.topicUrl r.1.seenTopics }, r.2.1, false)

/-- `for torrent in torrents:` — sequential over the listing. -/
def processTopics (env : CycleEnv) :
    MonitorState → List Topic → MonitorState × List Event × Bool
  | st, [] => (st, [], false)
  | st, t :: ts =>
    let r := processTopic env st t
    if r.2.2 then r
    else
      let r2 := processTopics env r.1 ts
      (r2.1, r.2.1 ++ r2.2.1, r2.2.2)

/-- One poll cycle, lines 210-242.  `crawl = none` models `_crawl_tbl`
raising: the `except Exception` arm at line 212 logs and substitutes the
empty listing. -/
def processCycle (env : CycleEnv) (st : MonitorState)
    (crawl : Option (List Topic)) : MonitorState × List Event × Bool :=
  processTopics env st (crawl.getD [])

/-- Why `_tamilblasters_monitor` returned. -/
inductive ExitReason where
  | cancelled    -- `asyncio.CancelledError`: the only exit the loop expects
  | fatalError   -- any other exception propagated out of the `while True`
deriving DecidableEq

/-- `_tamilblasters_monitor` (lines 206-248) over a finite trace of poll
cycles, each element one `_crawl_tbl` outcome.  Exhausting the trace
models cancellation arriving at the next suspension point; an exception
that no handler inside the loop catches ends the run with `fatalError`.
On either exit the `finally` block clears `_monitor_task`
(`taskActive := false`). -/
def _tamilblasters_monitor (env : CycleEnv) :
    MonitorState → List (Option (List Topic)) → MonitorState × ExitReason
  | st, [] => ({ st with taskActive := false }, ExitReason.cancelled)
  | st, c :: cs =>
    let r := processCycle env st c
    if r.2.2 then ({ r.1 with taskActive := false }, ExitReason.fatalError)
    else _tamilblasters_monitor env r.1 cs

/-- The module's configuration surface as read by `_start_monitor`. -/
structure Config where
  autoTblChannel : Option ChatRef
  autoTblCommandChat : Option ChatRef
deriving DecidableEq

/-- What `_start_monitor` reported to the operator. -/
inductive StartResult where
  | misconfigured   -- `AUTO_TBL_CHANNEL is not configured.`
  | alreadyRunning  -- `... is already running.`
  | started         -- `... started.`
deriving DecidableEq

/-- `_start_monitor` (lines 251-265): the configuration check precedes the
mutex section; inside it, a live task returns early with no state change,
otherwise the command chat is recorded
(`config_dict.get('AUTO_TBL_COMMAND_CHAT') or message.chat.id`), the
resolver cache is reset, and a new loop task is spawned.  The dedup sets
are not touched on either path. -/
def _start_monitor (cfg : Config) (msgChatId : ChatRef) (st : MonitorState) :
    MonitorState × StartResult :=
  if optFalsy cfg.autoTblChannel then (st, StartResult.misconfigured)
  else if st.taskActive then (st, StartResult.alreadyRunning)
  else
    ({ st with
        commandChat := pyOr cfg.autoTblCommandChat (some msgChatId),
        cache := none,
        taskActive := true },
     StartResult.started)

/-- What `_stop_monitor` reported to the operator. -/
inductive StopResult where
  | notRunning
  | stopped
deriving DecidableEq

/-- `_stop_monitor` (lines 268-279): cancel the live task and await it;
the loop's `finally` clears the handle, so afterwards no task is active.
Dedup sets, cache and command chat are untouched. -/
def _stop_monitor (st : MonitorState) : MonitorState × StopResult :=
  if st.taskActive then ({ st with taskActive := false }, StopResult.stopped)
  else (st, StopResult.notRunning)

/-- The delivery name as claim C9 words it: characters outside
`[0-9A-Za-z._-]` are *stripped* (deleted) from the title, with the generic
default name when the stripped title (or the input) is empty.  Written
from the claim's words only, for comparison with `_sanitize_filename`. -/
def specStrippedName (name : String) : String :=
  let safe := String.mk (name.data.filter safeChar)
  if safe = ("") then ("tbl_torrent.torrent") else safe ++ (".torrent")

/-! ### Concrete fixtures used by witnesses and counterexamples -/

def chanRef : ChatRef := ChatRef.intRef (-100123)

def fileF1 : FileDesc :=
  { title := "Movie 2024", link := "https://files.example/L1", size := "1.4 GB" }

def topicT1 : Topic :=
  { topicUrl := "https://www.1tamilmv.land/forums/topic/t1",
    title := "Movie 2024", size := "1.4 GB", links := [fileF1] }

/-- Every collaborator call succeeds. -/
def envOkDelivery : CycleEnv :=
  { download := fun _ => true,
    send := fun _ => SendOutcome.ok,
    getChat := fun _ =>
      GetChatResult.ok { id := -100123, ctype := some ChatType.supergroup },
    cfgCommandChat := none,
    cfgChannel := some chanRef }

/-- Every `send_document` raises outside the RPC error class. -/
def envFatalDelivery : CycleEnv :=
  { envOkDelivery with send := fun _ => SendOutcome.fatalError }

/-- Every `send_document` raises `RPCError` (the caught class). -/
def envRpcFailDelivery : CycleEnv :=
  { envOkDelivery with send := fun _ => SendOutcome.rpcError }

/-- Deliveries succeed but every `bot.get_chat` raises outside the RPC
error class (the class `_resolve_command_chat` does not catch). -/
def envFatalResolve : CycleEnv :=
  { envOkDelivery with getChat := fun _ => GetChatResult.fatalError }

/-- Process cold start: nothing seen, no task. -/
def stIdle : MonitorState :=
  { lastLinks := ∅, seenTopics := ∅, commandChat := none, cache := none,
    taskActive := false }

/-- A run in flight with a recorded command chat. -/
def stRunning : MonitorState :=
  { stIdle with commandChat := some chanRef, taskActive := true }

/-- `topicT1` and its one file already recorded as seen, task in flight. -/
def stSeenAll : MonitorState :=
  { lastLinks := {fileF1.link}, seenTopics := {topicT1.topicUrl},
    commandChat := some chanRef, cache := none, taskActive := true }

def cfgFull : Config :=
  { autoTblChannel := some chanRef, autoTblCommandChat := none }

def cfgNoChannel : Config :=
  { autoTblChannel := none, autoTblCommandChat := none }

/-- The state after: cold start, successful `_start_monitor`, one poll
cycle of the first run delivering `fileF1`, run ends (cancelled, handle
cleared by `finally`). -/
def stAfterRun1 : MonitorState :=
  (_tamilblasters_monitor envOkDelivery
    (_start_monitor cfgFull (ChatRef.intRef 7) stIdle).1 [some [topicT1]]).1

/-! ### Helper lemmas: the filename sanitizer -/

lemma subBadAux_safe (l : List Char) :
    ∀ (b : Bool), ∀ c ∈ subBadAux b l, safeChar c = true := by
  induction l with
  | nil => intro b c hc; simp [subBadAux] at hc
  | cons x xs ih =>
    intro b c hc
    by_cases hx : safeChar x = true
    · rw [subBadAux, if_pos hx] at hc
      rcases List.mem_cons.mp hc with rfl | h
      · exact hx
      · exact ih false c h
    · rw [subBadAux, if_neg hx] at hc
      cases b with
      | true => simpa using ih true c (by simpa using hc)
      | false =>
        rcases List.mem_cons.mp (by simpa using hc) with rfl | h
        · decide
        · exact ih true c h

lemma stripUnderscore_subset (l : List Char) :
    ∀ c ∈ stripUnderscore l, c ∈ l := by
  intro c hc
  unfold stripUnderscore at hc
  rw [List.mem_reverse] at hc
  have h1 := (List.dropWhile_sublist _).subset hc
  rw [List.mem_reverse] at h1
  exact (List.dropWhile_sublist _).subset h1

lemma string_data_append (s t : String) : (s ++ t).data = s.data ++ t.data := rfl

lemma string_mk_data (s : String) : String.mk s.data = s := rfl

/-- C9, counterexample to "is obtained by stripping characters outside
that conservative set from the title": on the title `"a b"` the code
replaces the blank with an underscore (`"a_b.torrent"`), it does not
delete it (`"ab.torrent"`). -/
theorem c9_counterexample :
    _sanitize_filename ("a b") = ("a_b.torrent")
  ∧ specStrippedName ("a b") = ("ab.torrent")
  ∧ _sanitize_filename ("a b") ≠ specStrippedName ("a b") :=
  ⟨by decide, by decide, by decide⟩

/-- C9 (amended): the derived delivery filename is non-empty and is a stem
of characters from `[0-9A-Za-z._-]` followed by `".torrent"`; the stem is
obtained by replacing each run of characters outside that set with one
underscore and trimming leading/trailing underscores (not by deleting
them); when that leaves nothing — in particular when the title is empty —
the result is the generic default `"tbl_torrent.torrent"`. -/
theorem c9_sanitize_filename_shape :
    (_sanitize_filename ("") = ("tbl_torrent.torrent"))
  ∧ (∀ name : String, stripUnderscore (subBadAux false name.data) = [] →
       _sanitize_filename name = ("tbl_torrent.torrent"))
  ∧ (∀ name : String, ∃ stem : List Char,
       (_sanitize_filename name).data = stem ++ (".torrent").data
       ∧ stem ≠ []
       ∧ (∀ c ∈ stem, safeChar c = true)) := by
  refine ⟨by decide, ?_, ?_⟩
  · intro name h
    by_cases hname : name = ("")
    · rw [hname]; decide
    · rw [_sanitize_filename, if_neg hname]
      simp only [h]
      decide
  · intro name
    by_cases hname : name = ("")
    · refine ⟨("tbl_torrent").data, ?_, by decide, by decide⟩
      rw [hname]; decide
    · rw [_sanitize_filename, if_neg hname]
      by_cases hsafe : String.mk (stripUnderscore (subBadAux false name.data)) = ("")
      · refine ⟨("tbl_torrent").data, ?_, by decide, by decide⟩
        simp only [hsafe]
        decide
      · refine ⟨stripUnderscore (subBadAux false name.data), ?_, ?_, ?_⟩
        · simp only [if_neg hsafe, string_data_append]
        · intro hnil
          exact hsafe (by rw [hnil])
        · intro c hc
          exact subBadAux_safe _ false c (stripUnderscore_subset _ c hc)

/-! ### Helper lemmas: the crawl's bounded, deduplicated topic window -/

lemma dedupKeepFirstAux_sublist (l : List String) :
    ∀ seen, List.Sublist (dedupKeepFirstAux seen l) l := by
  induction l with
  | nil => intro seen; simp [dedupKeepFirstAux]
  | cons x xs ih =>
    intro seen
    rw [dedupKeepFirstAux]
    by_cases hx : x ∈ seen
    · rw [if_pos hx]; exact (ih seen).cons x
    · rw [if_neg hx]; exact (ih (x :: seen)).cons₂ x

lemma dedupKeepFirstAux_mem_not_seen (l : List String) :
    ∀ seen x, x ∈ dedupKeepFirstAux seen l → x ∉ seen := by
  induction l with
  | nil => intro seen x hx; simp [dedupKeepFirstAux] at hx
  | cons y ys ih =>
    intro seen x hx
    rw [dedupKeepFirstAux] at hx
    by_cases hy : y ∈ seen
    · rw [if_pos hy] at hx; exact ih seen x hx
    · rw [if_neg hy] at hx
      rcases List.mem_cons.mp hx with rfl | h
      · exact hy
      · intro hs
        exact ih (y :: seen) x h (List.mem_cons_of_mem y hs)

lemma dedupKeepFirstAux_nodup (l : List String) :
    ∀ seen, (dedupKeepFirstAux seen l).Nodup := by
  induction l with
  | nil => intro seen; simp [dedupKeepFirstAux]
  | cons y ys ih =>
    intro seen
    rw [dedupKeepFirstAux]
    by_cases hy : y ∈ seen
    · rw [if_pos hy]; exact ih seen
    · rw [if_neg hy]
      refine List.nodup_cons.mpr ⟨?_, ih (y :: seen)⟩
      intro hmem
      exact dedupKeepFirstAux_mem_not_seen ys (y :: seen) y hmem (List.mem_cons_self y seen)

lemma dedupKeepFirstAux_congr (l : List String) :
    ∀ s₁ s₂, (∀ a, a ∈ s₁ ↔ a ∈ s₂) →
      dedupKeepFirstAux s₁ l = dedupKeepFirstAux s₂ l := by
  induction l with
  | nil => intro s₁ s₂ _; rfl
  | cons y ys ih =>
    intro s₁ s₂ h
    rw [dedupKeepFirstAux, dedupKeepFirstAux]
    by_cases hy : y ∈ s₁
    · rw [if_pos hy, if_pos ((h y).mp hy)]
      exact ih s₁ s₂ h
    · rw [if_neg hy, if_neg (fun hy2 => hy ((h y).mpr hy2))]
      refine congrArg (y :: ·) (ih (y :: s₁) (y :: s₂) ?_)
      intro a
      simp only [List.mem_cons]
      exact or_congr Iff.rfl (h a)

lemma dedupKeepFirstAux_filter (l : List String) :
    ∀ seen x, dedupKeepFirstAux (x :: seen) l =
      dedupKeepFirstAux seen (l.filter (fun y => y != x)) := by
  induction l with
  | nil => intro seen x; rfl
  | cons y ys ih =>
    intro seen x
    by_cases hyx : y = x
    · subst hyx
      rw [dedupKeepFirstAux, if_pos (List.mem_cons_self y seen)]
      rw [List.filter_cons_of_neg (by simp)]
      exact ih seen y
    · rw [List.filter_cons_of_pos (by simp [hyx])]
      rw [dedupKeepFirstAux, dedupKeepFirstAux]
      by_cases hys : y ∈ seen
      · rw [if_pos (List.mem_cons_of_mem x hys), if_pos hys]
        exact ih seen x
      · rw [if_neg (by simp [hyx, hys]), if_neg hys]
        refine congrArg (y :: ·) ?_
        calc dedupKeepFirstAux (y :: x :: seen) ys
            = dedupKeepFirstAux (x :: y :: seen) ys := by
              refine dedupKeepFirstAux_congr ys _ _ ?_
              intro a; simp only [List.mem_cons]; tauto
          _ = dedupKeepFirstAux (y :: seen) (ys.filter (fun z => z != x)) :=
              ih (y :: seen) x

lemma crawlTopics_length (fetchTopic : String → Option (List FileDesc)) :
    ∀ urls, (crawlTopics fetchTopic urls).length ≤ urls.length := by
  intro urls
  induction urls with
  | nil => simp [crawlTopics]
  | cons rel rest ih =>
    rw [crawlTopics]
    cases fetchTopic (fullUrlOf rel) with
    | none => exact Nat.le_succ_of_le ih
    | some fs =>
      cases fs with
      | nil => exact Nat.le_succ_of_le ih
      | cons f fs' => simpa using Nat.succ_le_succ ih

/-- C8: one crawl call returns at most `_MAX_TOPICS` (15) topics; the
URLs it evaluates are the page's topic hrefs deduplicated to first
occurrences (a duplicate-free sublist of the page's list, with
`dict.fromkeys` keeping each first occurrence), truncated to the first
`_MAX_TOPICS`. -/
theorem c8_bounded_window (fetchTopic : String → Option (List FileDesc))
    (topicLinks : List String) :
    (_crawl_tbl_sync fetchTopic topicLinks).length ≤ _MAX_TOPICS
  ∧ crawlEvaluated topicLinks = (dedupKeepFirst topicLinks).take _MAX_TOPICS
  ∧ (crawlEvaluated topicLinks).Nodup
  ∧ (crawlEvaluated topicLinks).Sublist topicLinks
  ∧ (∀ x xs, dedupKeepFirst (x :: xs) =
       x :: dedupKeepFirst (xs.filter (fun y => y != x))) := by
  refine ⟨?_, rfl, ?_, ?_, ?_⟩
  · refine le_trans (crawlTopics_length fetchTopic _) ?_
    rw [crawlEvaluated, List.length_take]
    exact min_le_left _ _
  · exact (dedupKeepFirstAux_nodup topicLinks []).sublist (List.take_sublist _ _)
  · exact (List.take_sublist _ _).trans (dedupKeepFirstAux_sublist topicLinks [])
  · intro x xs
    rw [dedupKeepFirst, dedupKeepFirstAux, if_neg (List.not_mem_nil x)]
    exact congrArg (x :: ·) (dedupKeepFirstAux_filter xs [] x)

/-! ### Helper lemmas: the per-item pipeline and the poll loop -/

lemma trigger_events_head (env : CycleEnv) (cc : Option ChatRef)
    (cache : Option (ChatRef × ChatStub)) (link : String) :
    ∃ rest, (_trigger_qbleech env cc cache link).2.1 =
      Event.triggerCall link :: rest := by
  rcases h : pyOr cc (pyOr env.cfgCommandChat env.cfgChannel) with _ | r
  · exact ⟨[], by simp [_trigger_qbleech, h]⟩
  · by_cases hr : r.truthy = false
    · exact ⟨[], by simp [_trigger_qbleech, h, hr]⟩
    · rcases h2 : _resolve_command_chat env.getChat cache r with ⟨c2, res, evs⟩
      cases res with
      | failed => exact ⟨evs, by simp [_trigger_qbleech, h, hr, h2]⟩
      | raised => exact ⟨evs, by simp [_trigger_qbleech, h, hr, h2]⟩
      | resolved stub =>
        exact ⟨evs ++ [Event.mirrorLeechCall link],
          by simp [_trigger_qbleech, h, hr, h2]⟩

lemma resolve_raised (getChat : ChatRef → GetChatResult)
    (cache : Option (ChatRef × ChatStub)) (ref : ChatRef) :
    (_resolve_command_chat getChat cache ref).2.1 = ResolveOutcome.raised →
    getChat ref = GetChatResult.fatalError := by
  rcases cache with _ | ⟨k, v⟩
  · rw [_resolve_command_chat]
    cases hg : getChat ref <;> simp [resolveFresh, hg]
  · rw [_resolve_command_chat]
    by_cases hk : k = ref
    · rw [if_pos hk]; intro h; cases h
    · rw [if_neg hk]
      cases hg : getChat ref <;> simp [resolveFresh, hg]

lemma trigger_no_raise (env : CycleEnv)
    (hgc : ∀ r, env.getChat r ≠ GetChatResult.fatalError)
    (cc : Option ChatRef) (cache : Option (ChatRef × ChatStub)) (link : String) :
    (_trigger_qbleech env cc cache link).2.2 ≠ TriggerPath.raised := by
  rcases h : pyOr cc (pyOr env.cfgCommandChat env.cfgChannel) with _ | r
  · simp [_trigger_qbleech, h]
  · by_cases hr : r.truthy = false
    · simp [_trigger_qbleech, h, hr]
    · rcases h2 : _resolve_command_chat env.getChat cache r with ⟨c2, res, evs⟩
      cases res with
      | resolved stub => simp [_trigger_qbleech, h, hr, h2]
      | failed => simp [_trigger_qbleech, h, hr, h2]
      | raised =>
        exact absurd (resolve_raised env.getChat cache r (by rw [h2])) (hgc r)

lemma processFile_frame (env : CycleEnv) (st : MonitorState) (f : FileDesc) :
    (processFile env st f).1.seenTopics = st.seenTopics
  ∧ (processFile env st f).1.commandChat = st.commandChat
  ∧ (processFile env st f).1.taskActive = st.taskActive := by
  rw [processFile]
  by_cases hd : env.download f.link = false
  · rw [if_pos hd]; exact ⟨rfl, rfl, rfl⟩
  · rw [if_neg hd]
    cases env.send f.link <;> exact ⟨rfl, rfl, rfl⟩

lemma processFile_lastLinks (env : CycleEnv) (st : MonitorState) (f : FileDesc) :
    (processFile env st f).1.lastLinks =
      if env.download f.link = true ∧ env.send f.link = SendOutcome.ok
      then insert f.link st.lastLinks else st.lastLinks := by
  by_cases hd : env.download f.link = false
  · rw [processFile, if_pos hd, if_neg (by simp [hd])]
  · have hd' : env.download f.link = true := by
      cases hdl : env.download f.link
      · exact absurd hdl hd
      · rfl
    rw [processFile, if_neg hd]
    cases hs : env.send f.link
    · rw [if_pos ⟨hd', rfl⟩]
    · rw [if_neg (by simp)]
    · rw [if_neg (by simp)]

lemma processFile_fatal (env : CycleEnv) (st : MonitorState) (f : FileDesc) :
    (processFile env st f).2.2 = true ↔
      (env.download f.link = true ∧
        (env.send f.link = SendOutcome.fatalError
          ∨ (env.send f.link = SendOutcome.ok
              ∧ (_trigger_qbleech env st.commandChat st.cache f.link).2.2
                  = TriggerPath.raised))) := by
  by_cases hd : env.download f.link = false
  · rw [processFile, if_pos hd]
    simp [hd]
  · have hd' : env.download f.link = true := by
      cases hdl : env.download f.link
      · exact absurd hdl hd
      · rfl
    rw [processFile, if_neg hd]
    cases hs : env.send f.link
    · simp [hd']
    · simp [hd']
    · simp [hd']

lemma processFile_trigger_iff (env : CycleEnv) (st : MonitorState) (f : FileDesc) :
    (Event.triggerCall f.link ∈ (processFile env st f).2.1) ↔
      (env.download f.link = true ∧ env.send f.link = SendOutcome.ok) := by
  by_cases hd : env.download f.link = false
  · rw [processFile, if_pos hd]
    simp [hd]
  · have hd' : env.download f.link = true := by
      cases hdl : env.download f.link
      · exact absurd hdl hd
      · rfl
    rw [processFile, if_neg hd]
    cases hs : env.send f.link
    · obtain ⟨rest, hrest⟩ := trigger_events_head env st.commandChat st.cache f.link
      simp [hd', hs, hrest]
    · simp [hd', hs]
    · simp [hd', hs]

lemma processFiles_frame (env : CycleEnv) :
    ∀ (fs : List FileDesc) (st : MonitorState),
    (processFiles env st fs).1.seenTopics = st.seenTopics
  ∧ (processFiles env st fs).1.commandChat = st.commandChat
  ∧ (processFiles env st fs).1.taskActive = st.taskActive := by
  intro fs
  induction fs with
  | nil => intro st; exact ⟨rfl, rfl, rfl⟩
  | cons f fs ih =>
    intro st
    simp only [processFiles]
    by_cases hf : (processFile env st f).2.2 = true
    · rw [if_pos hf]
      exact processFile_frame env st f
    · rw [if_neg hf]
      obtain ⟨h1, h2, h3⟩ := ih (processFile env st f).1
      obtain ⟨g1, g2, g3⟩ := processFile_frame env st f
      exact ⟨h1.trans g1, h2.trans g2, h3.trans g3⟩

lemma processFiles_fatal (env : CycleEnv)
    (hgc : ∀ r, env.getChat r ≠ GetChatResult.fatalError) :
    ∀ (fs : List FileDesc) (st : MonitorState),
    (∀ f ∈ fs, env.send f.link ≠ SendOutcome.fatalError) →
    (processFiles env st fs).2.2 = false := by
  intro fs
  induction fs with
  | nil => intro st _; rfl
  | cons f fs ih =>
    intro st h
    simp only [processFiles]
    have hf : ¬((processFile env st f).2.2 = true) := by
      rw [processFile_fatal]
      rintro ⟨-, hsend | ⟨-, hraise⟩⟩
      · exact h f (List.mem_cons_self f fs) hsend
      · exact trigger_no_raise env hgc st.commandChat st.cache f.link hraise
    rw [if_neg hf]
    exact ih (processFile env st f).1 (fun g hg => h g (List.mem_cons_of_mem f hg))

lemma processFiles_not_added (env : CycleEnv) (x : String)
    (hx : env.download x = false ∨ env.send x = SendOutcome.rpcError) :
    ∀ (fs : List FileDesc) (st : MonitorState),
    x ∉ st.lastLinks → x ∉ (processFiles env st fs).1.lastLinks := by
  intro fs
  induction fs with
  | nil => intro st h; exact h
  | cons f fs ih =>
    intro st h
    have hstep : x ∉ (processFile env st f).1.lastLinks := by
      rw [processFile_lastLinks]
      by_cases hcond : env.download f.link = true ∧ env.send f.link = SendOutcome.ok
      · rw [if_pos hcond]
        intro hmem
        rcases Finset.mem_insert.mp hmem with rfl | hmem2
        · rcases hx with hx1 | hx2
          · rw [hcond.1] at hx1; exact Bool.true_eq_false.mp hx1
          · rw [hcond.2] at hx2; cases hx2
        · exact h hmem2
      · rw [if_neg hcond]; exact h
    simp only [processFiles]
    by_cases hf : (processFile env st f).2.2 = true
    · rw [if_pos hf]; exact hstep
    · rw [if_neg hf]; exact ih (processFile env st f).1 hstep

lemma processTopic_skip (env : CycleEnv) (st : MonitorState) (t : Topic)
    (h1 : t.topicUrl ∈ st.seenTopics) (h2 : newFilesOf st t = []) :
    processTopic env st t = (st, [], false) := by
  simp only [processTopic]
  rw [if_pos ⟨h1, h2⟩]

lemma processTopic_marked (env : CycleEnv) (st : MonitorState) (t : Topic)
    (hgc : ∀ r, env.getChat r ≠ GetChatResult.fatalError)
    (hns : ¬(t.topicUrl ∈ st.seenTopics ∧ newFilesOf st t = []))
    (hnf : ∀ f ∈ newFilesOf st t, env.send f.link ≠ SendOutcome.fatalError) :
    (processTopic env st t).2.2 = false
  ∧ t.topicUrl ∈ (processTopic env st t).1.seenTopics
  ∧ ∀ f ∈ newFilesOf st t,
      (env.download f.link = false ∨ env.send f.link = SendOutcome.rpcError) →
      f.link ∉ (processTopic env st t).1.lastLinks := by
  have hfatal := processFiles_fatal env hgc (newFilesOf st t) st hnf
  simp only [processTopic]
  rw [if_neg hns, if_neg (by simp [hfatal])]
  refine ⟨rfl, Finset.mem_insert_self _ _, ?_⟩
  intro f hf hfail
  have hstart : f.link ∉ st.lastLinks := by
    have hm := List.mem_filter.mp hf
    simpa using hm.2
  exact processFiles_not_added env f.link hfail (newFilesOf st t) st hstart

lemma processTopic_fatal_of_no_fatal_send (env : CycleEnv)
    (h : ∀ l, env.send l ≠ SendOutcome.fatalError)
    (hgc : ∀ r, env.getChat r ≠ GetChatResult.fatalError)
    (st : MonitorState) (t : Topic) :
    (processTopic env st t).2.2 = false := by
  simp only [processTopic]
  by_cases hskip : t.topicUrl ∈ st.seenTopics ∧ newFilesOf st t = []
  · rw [if_pos hskip]
  · rw [if_neg hskip]
    have hfatal := processFiles_fatal env hgc (newFilesOf st t) st (fun f _ => h f.link)
    rw [if_neg (by simp [hfatal])]

lemma processTopics_fatal (env : CycleEnv)
    (h : ∀ l, env.send l ≠ SendOutcome.fatalError)
    (hgc : ∀ r, env.getChat r ≠ GetChatResult.fatalError) :
    ∀ (ts : List Topic) (st : MonitorState),
    (processTopics env st ts).2.2 = false := by
  intro ts
  induction ts with
  | nil => intro st; rfl
  | cons t ts ih =>
    intro st
    simp only [processTopics]
    rw [if_neg (by simp [processTopic_fatal_of_no_fatal_send env h hgc st t])]
    exact ih (processTopic env st t).1

lemma monitor_clears_task (env : CycleEnv) :
    ∀ (cycles : List (Option (List Topic))) (st : MonitorState),
    (_tamilblasters_monitor env st cycles).1.taskActive = false := by
  intro cycles
  induction cycles with
  | nil => intro st; rfl
  | cons c cs ih =>
    intro st
    simp only [_tamilblasters_monitor]
    by_cases hf : (processCycle env st c).2.2 = true
    · rw [if_pos hf]
    · rw [if_neg hf]
      exact ih (processCycle env st c).1

lemma monitor_cancelled (env : CycleEnv)
    (h : ∀ l, env.send l ≠ SendOutcome.fatalError)
    (hgc : ∀ r, env.getChat r ≠ GetChatResult.fatalError) :
    ∀ (cycles : List (Option (List Topic))) (st : MonitorState),
    (_tamilblasters_monitor env st cycles).2 = ExitReason.cancelled := by
  intro cycles
  induction cycles with
  | nil => intro st; rfl
  | cons c cs ih =>
    intro st
    simp only [_tamilblasters_monitor]
    rw [if_neg (by simp [processCycle, processTopics_fatal env h hgc])]
    exact ih (processCycle env st c).1

/-! ### Helper lemmas: the chat resolver and the downstream trigger -/

lemma resolve_unresolved_keeps_cache (getChat : ChatRef → GetChatResult)
    (cache : Option (ChatRef × ChatStub)) (ref : ChatRef) :
    ((_resolve_command_chat getChat cache ref).2.1 = ResolveOutcome.failed
      ∨ (_resolve_command_chat getChat cache ref).2.1 = ResolveOutcome.raised) →
    (_resolve_command_chat getChat cache ref).1 = cache := by
  rcases cache with _ | ⟨k, v⟩
  · rw [_resolve_command_chat]
    cases hg : getChat ref <;> simp [resolveFresh, hg]
  · rw [_resolve_command_chat]
    by_cases hk : k = ref
    · rw [if_pos hk]; rintro (h | h) <;> cases h
    · rw [if_neg hk]
      cases hg : getChat ref <;> simp [resolveFresh, hg]

lemma resolve_no_mirror (getChat : ChatRef → GetChatResult)
    (cache : Option (ChatRef × ChatStub)) (ref : ChatRef) (link : String) :
    Event.mirrorLeechCall link ∉ (_resolve_command_chat getChat cache ref).2.2 := by
  rcases cache with _ | ⟨k, v⟩
  · rw [_resolve_command_chat]
    cases hg : getChat ref <;> simp [resolveFresh, hg]
  · rw [_resolve_command_chat]
    by_cases hk : k = ref
    · rw [if_pos hk]; simp
    · rw [if_neg hk]
      cases hg : getChat ref <;> simp [resolveFresh, hg]

lemma trigger_not_skipped_of_truthy (env : CycleEnv) (cc : Option ChatRef)
    (r : ChatRef) (cache : Option (ChatRef × ChatStub)) (link : String)
    (hcc : cc = some r) (htr : r.truthy = true) :
    (_trigger_qbleech env cc cache link).2.2 ≠ TriggerPath.notConfigured := by
  subst hcc
  have hchain : pyOr (some r) (pyOr env.cfgCommandChat env.cfgChannel) = some r := by
    simp [pyOr, htr]
  rcases h2 : _resolve_command_chat env.getChat cache r with ⟨c2, res, evs⟩
  cases res with
  | failed => simp [_trigger_qbleech, hchain, htr, h2]
  | raised => simp [_trigger_qbleech, hchain, htr, h2]
  | resolved stub => simp [_trigger_qbleech, hchain, htr, h2]

/-! ### The claims -/

/-- C1: the per-item pipeline adds the file's link to `seen_links` exactly
when the payload download succeeded and `send_document` succeeded (the add
happens after the successful send); the Downstream Trigger
(`_trigger_qbleech`) is entered exactly in that case; and after a
payload-fetch failure or an RPC delivery failure the file's link is still
absent, so the file qualifies again in any later cycle's `new_files`
computation. -/
theorem c1_seen_links_only_after_delivery (env : CycleEnv) (st : MonitorState)
    (f : FileDesc) :
    ((processFile env st f).1.lastLinks =
       if env.download f.link = true ∧ env.send f.link = SendOutcome.ok
       then insert f.link st.lastLinks else st.lastLinks)
  ∧ ((Event.triggerCall f.link ∈ (processFile env st f).2.1) ↔
       (env.download f.link = true ∧ env.send f.link = SendOutcome.ok))
  ∧ ((env.download f.link = false ∨ env.send f.link = SendOutcome.rpcError) →
       ∀ t : Topic, f ∈ t.links → f.link ∉ st.lastLinks →
         f ∈ newFilesOf (processFile env st f).1 t) := by
  refine ⟨processFile_lastLinks env st f, processFile_trigger_iff env st f, ?_⟩
  intro hfail t hft hnot
  have hnot2 : f.link ∉ (processFile env st f).1.lastLinks := by
    rw [processFile_lastLinks]
    by_cases hcond : env.download f.link = true ∧ env.send f.link = SendOutcome.ok
    · exfalso
      rcases hfail with hx1 | hx2
      · rw [hcond.1] at hx1; exact Bool.true_eq_false.mp hx1
      · rw [hcond.2] at hx2; cases hx2
    · rw [if_neg hcond]; exact hnot
  exact List.mem_filter.mpr ⟨hft, by simpa using hnot2⟩

/-- C2, counterexample: with the upload destination unconfigured, a start
request issued while a task is running returns the configuration-missing
status, not the already-running status — the configuration check precedes
the running check.  (The state is still unchanged.) -/
theorem c2_counterexample :
    stRunning.taskActive = true
  ∧ (_start_monitor cfgNoChannel (ChatRef.intRef 7) stRunning).2 ≠ StartResult.alreadyRunning
  ∧ (_start_monitor cfgNoChannel (ChatRef.intRef 7) stRunning).2 = StartResult.misconfigured
  ∧ (_start_monitor cfgNoChannel (ChatRef.intRef 7) stRunning).1 = stRunning := by
  decide

/-- C2 (amended): a start request issued while a monitor task is running
and unfinished performs no side effects — the entire state (dedup sets,
resolver cache, recorded command chat, task handle) is returned
unchanged, so no second loop is spawned — and returns the already-running
status whenever the upload destination passes the configuration check
(which the code performs first); with the upload destination unset or
falsy it returns the configuration-missing status instead, still with no
side effects. -/
theorem c2_no_side_effects_when_running (cfg : Config) (msgChatId : ChatRef)
    (st : MonitorState) (h : st.taskActive = true) :
    (_start_monitor cfg msgChatId st).1 = st
  ∧ (optFalsy cfg.autoTblChannel = false →
       (_start_monitor cfg msgChatId st).2 = StartResult.alreadyRunning)
  ∧ (optFalsy cfg.autoTblChannel = true →
       (_start_monitor cfg msgChatId st).2 = StartResult.misconfigured) := by
  by_cases hch : optFalsy cfg.autoTblChannel = true
  · rw [_start_monitor, if_pos hch]
    exact ⟨rfl, fun hf => absurd hch (by simp [hf]), fun _ => rfl⟩
  · rw [_start_monitor, if_neg hch, if_pos h]
    exact ⟨rfl, fun _ => rfl, fun ht => absurd ht hch⟩

theorem c2_witness :
    (_start_monitor cfgFull (ChatRef.intRef 7) stRunning).1 = stRunning
  ∧ (_start_monitor cfgFull (ChatRef.intRef 7) stRunning).2 = StartResult.alreadyRunning := by
  have h := c2_no_side_effects_when_running cfgFull (ChatRef.intRef 7) stRunning (by decide)
  exact ⟨h.1, h.2.1 (by decide)⟩

/-- C3, counterexample: two error sources are caught by no handler inside
`_tamilblasters_monitor` and terminate the run without cancellation — a
delivery failure outside the RPC error class (only `RPCError` is caught
at the send, only `CancelledError` at the top), and likewise a
`bot.get_chat` failure outside the RPC error class, which propagates
through `_trigger_qbleech` (its `try/except` wraps only `_mirror_leech`).
The `finally` still clears the task handle in both runs. -/
theorem c3_counterexample :
    (_tamilblasters_monitor envFatalDelivery stRunning [some [topicT1]]).2
      = ExitReason.fatalError
  ∧ (_tamilblasters_monitor envFatalDelivery stRunning [some [topicT1]]).1.taskActive
      = false
  ∧ (_tamilblasters_monitor envFatalResolve stRunning [some [topicT1]]).2
      = ExitReason.fatalError
  ∧ (_tamilblasters_monitor envFatalResolve stRunning [some [topicT1]]).1.taskActive
      = false := by
  decide

/-- C3 (amended): source-crawl errors, payload-download failures,
RPC-class delivery errors, RPC-class chat-resolution failures and
downstream-action exceptions are all absorbed and the loop runs every
provided cycle to the end, exiting only by cancellation; a delivery
failure or a chat-resolution failure outside the `RPCError` class — the
two sites guarded only by `except RPCError` — propagates and terminates
the loop; and on every exit path the task handle is cleared so a restart
is possible. -/
theorem c3_loop_survives_soft_errors :
    (∀ (env : CycleEnv) (cycles : List (Option (List Topic))) (st : MonitorState),
       (_tamilblasters_monitor env st cycles).1.taskActive = false)
  ∧ (∀ (env : CycleEnv) (cycles : List (Option (List Topic))) (st : MonitorState),
       (∀ l, env.send l ≠ SendOutcome.fatalError) →
       (∀ r, env.getChat r ≠ GetChatResult.fatalError) →
       (_tamilblasters_monitor env st cycles).2 = ExitReason.cancelled) :=
  ⟨fun env cycles st => monitor_clears_task env cycles st,
   fun env cycles st h hgc => monitor_cancelled env h hgc cycles st⟩

/-- C4, counterexample: a first run delivers one file and ends with the
task handle cleared; a second `_start_monitor` succeeds, yet its state
still holds the first run's link and topic — start resets only the
resolver cache, never `_monitor_last_links` or `_monitor_seen_topics`, so
the second run's first cycle does not observe empty dedup sets. -/
theorem c4_counterexample :
    stAfterRun1.taskActive = false
  ∧ (_start_monitor cfgFull (ChatRef.intRef 7) stAfterRun1).2 = StartResult.started
  ∧ fileF1.link ∈ (_start_monitor cfgFull (ChatRef.intRef 7) stAfterRun1).1.lastLinks
  ∧ topicT1.topicUrl ∈ (_start_monitor cfgFull (ChatRef.intRef 7) stAfterRun1).1.seenTopics := by
  decide

/-- C4 (amended): a successful `_start_monitor` resets the Chat Resolver
Cache but leaves `seen_links` and `seen_topics` exactly as they were, so
dedup state persists across runs of the same process; only a process
restart (the module-level empty sets) yields an empty Dedup Store. -/
theorem c4_start_keeps_dedup_store (cfg : Config) (msgChatId : ChatRef)
    (st : MonitorState) (hrun : st.taskActive = false)
    (hch : optFalsy cfg.autoTblChannel = false) :
    (_start_monitor cfg msgChatId st).2 = StartResult.started
  ∧ (_start_monitor cfg msgChatId st).1.lastLinks = st.lastLinks
  ∧ (_start_monitor cfg msgChatId st).1.seenTopics = st.seenTopics
  ∧ (_start_monitor cfg msgChatId st).1.cache = none := by
  rw [_start_monitor, if_neg (by simp [hch]), if_neg (by simp [hrun])]
  exact ⟨rfl, rfl, rfl, rfl⟩

theorem c4_witness :
    (_start_monitor cfgFull (ChatRef.intRef 7) stAfterRun1).2 = StartResult.started
  ∧ (_start_monitor cfgFull (ChatRef.intRef 7) stAfterRun1).1.lastLinks = stAfterRun1.lastLinks
  ∧ (_start_monitor cfgFull (ChatRef.intRef 7) stAfterRun1).1.seenTopics = stAfterRun1.seenTopics
  ∧ (_start_monitor cfgFull (ChatRef.intRef 7) stAfterRun1).1.cache = none :=
  c4_start_keeps_dedup_store cfgFull (ChatRef.intRef 7) stAfterRun1 (by decide) (by decide)

/-- C5: a topic that is not skipped, all of whose new files run the
pipeline to completion (no delivery or chat-resolution error outside the
caught RPC classes — a propagating exception would abort the file loop),
is marked seen afterwards regardless of the files' individual outcomes,
while every new file that failed its payload fetch or failed delivery
with an RPC error stays absent from `seen_links`. -/
theorem c5_topic_marked_after_processing (env : CycleEnv) (st : MonitorState)
    (t : Topic)
    (hgc : ∀ r, env.getChat r ≠ GetChatResult.fatalError)
    (hns : ¬(t.topicUrl ∈ st.seenTopics ∧ newFilesOf st t = []))
    (hnf : ∀ f ∈ newFilesOf st t, env.send f.link ≠ SendOutcome.fatalError) :
    (processTopic env st t).2.2 = false
  ∧ t.topicUrl ∈ (processTopic env st t).1.seenTopics
  ∧ ∀ f ∈ newFilesOf st t,
      (env.download f.link = false ∨ env.send f.link = SendOutcome.rpcError) →
      f.link ∉ (processTopic env st t).1.lastLinks :=
  processTopic_marked env st t hgc hns hnf

theorem c5_witness :
    (processTopic envRpcFailDelivery stRunning topicT1).2.2 = false
  ∧ topicT1.topicUrl ∈ (processTopic envRpcFailDelivery stRunning topicT1).1.seenTopics
  ∧ ∀ f ∈ newFilesOf stRunning topicT1,
      (envRpcFailDelivery.download f.link = false
        ∨ envRpcFailDelivery.send f.link = SendOutcome.rpcError) →
      f.link ∉ (processTopic envRpcFailDelivery stRunning topicT1).1.lastLinks :=
  c5_topic_marked_after_processing envRpcFailDelivery stRunning topicT1
    (fun r => by simp [envRpcFailDelivery, envOkDelivery]) (by decide) (by decide)

/-- C6: a topic already in `seen_topics` all of whose file links are
already in `seen_links` is skipped whole: the cycle performs no
collaborator call for it (empty event list) and returns the state
unchanged — nothing fetched, delivered, triggered, or re-marked. -/
theorem c6_seen_topic_skipped (env : CycleEnv) (st : MonitorState) (t : Topic)
    (h1 : t.topicUrl ∈ st.seenTopics)
    (h2 : ∀ f ∈ t.links, f.link ∈ st.lastLinks) :
    processTopic env st t = (st, [], false) := by
  refine processTopic_skip env st t h1 ?_
  rw [newFilesOf, List.filter_eq_nil_iff]
  intro f hf
  simpa using h2 f hf

theorem c6_witness :
    processTopic envOkDelivery stSeenAll topicT1 = (stSeenAll, [], false) :=
  c6_seen_topic_skipped envOkDelivery stSeenAll topicT1 (by decide) (by decide)

/-- C7: the Chat Resolver Cache is a capacity-1 memo: a request matching
the cached key returns the memoized stub with no resolution call (empty
event list); a request with a different key (or an empty cache) performs
one resolution call and, on success, overwrites the single slot with the
new entry; a resolution that fails — with the caught `RPCError`, or with
a propagating exception of any other class — leaves the cache unchanged
and `_trigger_qbleech` abandons the item without the downstream call; and
a successful `_start_monitor` resets the cache, so nothing resolved in a
prior run is reused. -/
theorem c7_resolver_cache_memo :
    (∀ (getChat : ChatRef → GetChatResult) (cache : Option (ChatRef × ChatStub))
       (ref : ChatRef) (v : ChatStub),
       cache = some (ref, v) →
       _resolve_command_chat getChat cache ref = (cache, ResolveOutcome.resolved v, []))
  ∧ (∀ (getChat : ChatRef → GetChatResult) (cache : Option (ChatRef × ChatStub))
       (ref : ChatRef) (raw : RawChat),
       (∀ k v, cache = some (k, v) → k ≠ ref) → getChat ref = GetChatResult.ok raw →
       _resolve_command_chat getChat cache ref =
         (some (ref, ⟨raw.id, raw.ctype.getD ChatType.supergroup⟩),
          ResolveOutcome.resolved ⟨raw.id, raw.ctype.getD ChatType.supergroup⟩,
          [Event.getChatCall ref]))
  ∧ (∀ (getChat : ChatRef → GetChatResult) (cache : Option (ChatRef × ChatStub))
       (ref : ChatRef),
       (∀ k v, cache = some (k, v) → k ≠ ref) → getChat ref = GetChatResult.rpcError →
       _resolve_command_chat getChat cache ref =
         (cache, ResolveOutcome.failed, [Event.getChatCall ref]))
  ∧ (∀ (env : CycleEnv) (cc : Option ChatRef) (cache : Option (ChatRef × ChatStub))
       (link : String) (r : ChatRef),
       pyOr cc (pyOr env.cfgCommandChat env.cfgChannel) = some r →
       r.truthy = true →
       (_resolve_command_chat env.getChat cache r).2.1 = ResolveOutcome.failed →
       ((_trigger_qbleech env cc cache link).1 = cache
        ∧ (_trigger_qbleech env cc cache link).2.2 = TriggerPath.resolveFailed
        ∧ Event.mirrorLeechCall link ∉ (_trigger_qbleech env cc cache link).2.1))
  ∧ (∀ (env : CycleEnv) (cc : Option ChatRef) (cache : Option (ChatRef × ChatStub))
       (link : String) (r : ChatRef),
       pyOr cc (pyOr env.cfgCommandChat env.cfgChannel) = some r →
       r.truthy = true →
       (_resolve_command_chat env.getChat cache r).2.1 = ResolveOutcome.raised →
       ((_trigger_qbleech env cc cache link).1 = cache
        ∧ (_trigger_qbleech env cc cache link).2.2 = TriggerPath.raised
        ∧ Event.mirrorLeechCall link ∉ (_trigger_qbleech env cc cache link).2.1))
  ∧ (∀ (cfg : Config) (msgChatId : ChatRef) (st : MonitorState),
       optFalsy cfg.autoTblChannel = false → st.taskActive = false →
       (_start_monitor cfg msgChatId st).1.cache = none) := by
  refine ⟨?_, ?_, ?_, ?_, ?_, ?_⟩
  · intro getChat cache ref v h
    subst h
    simp [_resolve_command_chat]
  · intro getChat cache ref raw hne hget
    rcases cache with _ | ⟨k, v⟩
    · simp [_resolve_command_chat, resolveFresh, hget]
    · rw [_resolve_command_chat, if_neg (hne k v rfl)]
      simp [resolveFresh, hget]
  · intro getChat cache ref hne hget
    rcases cache with _ | ⟨k, v⟩
    · simp [_resolve_command_chat, resolveFresh, hget]
    · rw [_resolve_command_chat, if_neg (hne k v rfl)]
      simp [resolveFresh, hget]
  · intro env cc cache link r hchain htr hres
    have hkeep := resolve_unresolved_keeps_cache env.getChat cache r (Or.inl hres)
    have hnomirror := resolve_no_mirror env.getChat cache r link
    rcases h2 : _resolve_command_chat env.getChat cache r with ⟨c2, res, evs⟩
    rw [h2] at hres hkeep
    simp only at hres
    subst hres
    rw [h2] at hnomirror
    simp only at hkeep hnomirror
    refine ⟨?_, ?_, ?_⟩
    · simp [_trigger_qbleech, hchain, htr, h2, hkeep]
    · simp [_trigger_qbleech, hchain, htr, h2]
    · simp only [_trigger_qbleech, hchain, htr]
      simp [h2, hnomirror]
  · intro env cc cache link r hchain htr hres
    have hkeep := resolve_unresolved_keeps_cache env.getChat cache r (Or.inr hres)
    have hnomirror := resolve_no_mirror env.getChat cache r link
    rcases h2 : _resolve_command_chat env.getChat cache r with ⟨c2, res, evs⟩
    rw [h2] at hres hkeep
    simp only at hres
    subst hres
    rw [h2] at hnomirror
    simp only at hkeep hnomirror
    refine ⟨?_, ?_, ?_⟩
    · simp [_trigger_qbleech, hchain, htr, h2, hkeep]
    · simp [_trigger_qbleech, hchain, htr, h2]
    · simp only [_trigger_qbleech, hchain, htr]
      simp [h2, hnomirror]
  · intro cfg msgChatId st hch hrun
    rw [_start_monitor, if_neg (by simp [hch]), if_neg (by simp [hrun])]

/-- C10: a successful `_start_monitor` always records a truthy command
chat (the configured one, else the starting operator's own chat id), so
while that run is active the "not configured; skipping" branch of
`_trigger_qbleech` is unreachable and every trigger proceeds to chat
resolution. -/
theorem c10_command_chat_recorded (cfg : Config) (msgChatId : ChatRef)
    (st : MonitorState) (hmsg : msgChatId.truthy = true)
    (hch : optFalsy cfg.autoTblChannel = false) (hrun : st.taskActive = false) :
    (∃ r, (_start_monitor cfg msgChatId st).1.commandChat = some r
          ∧ r.truthy = true)
  ∧ (∀ (env : CycleEnv) (cache : Option (ChatRef × ChatStub)) (link : String),
       (_trigger_qbleech env ((_start_monitor cfg msgChatId st).1.commandChat)
           cache link).2.2 ≠ TriggerPath.notConfigured) := by
  have hcc : ∃ r, (_start_monitor cfg msgChatId st).1.commandChat = some r
      ∧ r.truthy = true := by
    rw [_start_monitor, if_neg (by simp [hch]), if_neg (by simp [hrun])]
    rcases hc : cfg.autoTblCommandChat with _ | r
    · exact ⟨msgChatId, by simp [pyOr], hmsg⟩
    · by_cases hr : r.truthy = true
      · exact ⟨r, by simp [pyOr, hr], hr⟩
      · have hr' : r.truthy = false := by
          cases hv : r.truthy
          · rfl
          · exact absurd hv hr
        exact ⟨msgChatId, by simp [pyOr, hr'], hmsg⟩
  obtain ⟨r, hsome, htr⟩ := hcc
  refine ⟨⟨r, hsome, htr⟩, ?_⟩
  intro env cache link
  rw [hsome]
  exact trigger_not_skipped_of_truthy env (some r) r cache link rfl htr

theorem c10_witness :
    (∃ r, (_start_monitor cfgFull (ChatRef.intRef 7) stIdle).1.commandChat = some r
          ∧ r.truthy = true)
  ∧ (∀ (env : CycleEnv) (cache : Option (ChatRef × ChatStub)) (link : String),
       (_trigger_qbleech env ((_start_monitor cfgFull (ChatRef.intRef 7) stIdle).1.commandChat)
           cache link).2.2 ≠ TriggerPath.notConfigured) :=
  c10_command_chat_recorded cfgFull (ChatRef.intRef 7) stIdle
    (by decide) (by decide) (by decide)

end AutoTbl
